import Mathlib

/-!
Verification development for the swift-too client library.

The Python source is shallowly embedded: pydantic schemas become Lean
structures and functions, instance attribute dictionaries become
association lists of string keys and JSON-like values, the mutable
status envelope becomes a pure value threaded through its operations,
and every fallible Python path (raised `ValidationError`, `KeyError`,
`HTTPError`, failed assertion) becomes an `Option`/`Except` failure.
Python `datetime`/`timedelta` values are modelled as rational numbers of
seconds, which is exact for the arithmetic the code performs on them.
-/

namespace SwiftToo

/-! ### Status envelope (`base/schema.py`, class `TOOStatus`)

`TOOStatus` is a pydantic model with `status`, optional `too_id` and
`jobnumber`, and error/warning string lists.  `error` and `warning`
append with member checks; any inserted error also sets `status` to
`"Rejected"`. -/

structure TOOStatus where
  status : String := "Accepted"
  too_id : Option Int := none
  jobnumber : Option Int := none
  errors : List String := []
  warnings : List String := []
  deriving Repr, DecidableEq

/-- Fresh envelope as produced by `TOOStatus()`. -/
def freshTOOStatus : TOOStatus := {}

/-- `TOOStatus.error`: append if not already present, and force the
status to `"Rejected"` on insert. -/
def TOOStatus.error (s : TOOStatus) (e : String) : TOOStatus :=
  if e ∈ s.errors then s
  else { s with errors := s.errors ++ [e], status := "Rejected" }

/-- `TOOStatus.warning`: append if not already present; the status field
is never touched. -/
def TOOStatus.warning (s : TOOStatus) (w : String) : TOOStatus :=
  if w ∈ s.warnings then s
  else { s with warnings := s.warnings ++ [w] }

/-- States of the envelope that its own operations can produce: the
error list carries no duplicates, and a nonempty error list forces the
rejected status.  A fresh envelope is of this shape and `error` and
`warning` preserve it. -/
def TOOStatus.Reachable (s : TOOStatus) : Prop :=
  s.errors.Nodup ∧ (s.errors ≠ [] → s.status = "Rejected")

instance (s : TOOStatus) : Decidable s.Reachable := by
  unfold TOOStatus.Reachable; infer_instance

/-! ### JSON values, attribute dictionaries and response schemas
(`base/common.py`, class `TOOAPIBaseClass`)

A resource instance's attribute dictionary and a decoded JSON response
body are both string-keyed maps, embedded as association lists with
first-match lookup (matching Python `dict` semantics, whose keys are
unique; lookup takes the first match so duplicate-keyed lists behave
consistently).  A pydantic response schema is a list of field
specifications; validating a decoded body against it yields the value
of every declared field: the body's value when the key is present, the
field's default when the key is absent and the field is optional, and
failure (a raised `ValidationError`) when a required field is absent. -/

inductive JValue where
  | null
  | bool (b : Bool)
  | num (q : ℚ)
  | str (s : String)
  deriving Repr, DecidableEq

abbrev AttrDict := List (String × JValue)

/-- First-match lookup in an association list (Python `dict` access). -/
def lookupA : AttrDict → String → Option JValue
  | [], _ => none
  | (k', v) :: t, k => if k' = k then some v else lookupA t k

/-- `setattr`: replace the first binding of `k`, or append a new one. -/
def setA : AttrDict → String → JValue → AttrDict
  | [], k, v => [(k, v)]
  | (k', v') :: t, k, v =>
      if k' = k then (k, v) :: t else (k', v') :: setA t k v

/-- One declared field of a pydantic response schema: its name, whether
it is required, and the default used when an optional field is absent
from the validated data. -/
structure FieldSpec where
  name : String
  required : Bool
  default : JValue
  deriving Repr, DecidableEq

abbrev RespSchema := List FieldSpec

/-- `Schema.model_validate(body)` restricted to what the copy-back loop
observes: iterating the validated model yields every declared field
paired with the body's value, or the default for an absent optional
field; a missing required field raises `ValidationError` (`none`). -/
def validateResponse : RespSchema → AttrDict → Option (List (String × JValue))
  | [], _ => some []
  | f :: rest, body =>
      let hd : Option JValue :=
        match lookupA body f.name with
        | some v => some v
        | none => if f.required then none else some f.default
      match hd, validateResponse rest body with
      | some v, some tl => some ((f.name, v) :: tl)
      | _, _ => none

/-- The `for k, v in model: setattr(self, k, v)` loop. -/
def applyFields (fields : AttrDict) (kvs : List (String × JValue)) : AttrDict :=
  kvs.foldl (fun a kv => setA a kv.1 kv.2) fields

/-- Field copy-back from a response body: validate the decoded JSON
against the response schema `_schema`, then assign every field of the
validated model onto the instance. -/
def copyback (sch : RespSchema) (fields : AttrDict) (body : AttrDict) :
    Option AttrDict :=
  (validateResponse sch body).map (applyFields fields)

/-! ### The request lifecycle (`base/common.py`,
`TOOAPIBaseClass.get/put/post/delete` and their `validate_*` gates)

A verb schema's `model_validate` over the outgoing parameters is
embedded as a boolean predicate on the instance's attribute dictionary
(the parameter projection the Python code performs is absorbed into the
predicate).  An HTTP response is a status code plus a decoded JSON
body.  Each verb returns its boolean result, or an exception name when
the Python code lets one propagate to the caller (`ValidationError`
from the verb gate, `KeyError` from a missing `detail` key,
`HTTPError` from `raise_for_status`).  Authentication and the request
timeout do not affect any modelled observable and are omitted. -/

structure VerbSchema where
  validate : AttrDict → Bool

structure Resource where
  fields : AttrDict
  status : TOOStatus
  schema : RespSchema
  get_schema : Option VerbSchema
  put_schema : Option VerbSchema
  post_schema : Option VerbSchema
  del_schema : Option VerbSchema

structure Response where
  status_code : ℕ
  body : AttrDict
  deriving Repr, DecidableEq

/-- `req.json()["detail"]`; `none` means a `KeyError` is raised. -/
def detailOf (resp : Response) : Option JValue := lookupA resp.body "detail"

/-- Rendering of a JSON value by a Python f-string (`f"{value}"`). Only
the string case is observed by the claims. -/
def pyStr : JValue → String
  | .null => "None"
  | .bool true => "True"
  | .bool false => "False"
  | .num q => toString q
  | .str s => s

structure VerbOutcome where
  result : Except String Bool
  res : Resource
  pywarnings : List String
  networkCalled : Bool

/-- `TOOAPIBaseClass.get`.  No `_get_schema`: warn and return `False`
with no network traffic.  Validation failure: the `ValidationError`
raised inside `validate_get` propagates and nothing is dispatched.
Otherwise the request is dispatched; 200 copies the validated response
fields back and returns `True`; 404 emits a Python warning with the
body's `detail` and returns `False`; any other code records `detail`
as a status error and returns `False`. -/
def doGet (r : Resource) (resp : Response) : VerbOutcome :=
  match r.get_schema with
  | none => ⟨.ok false, r, ["GET not allowed for this class."], false⟩
  | some gs =>
      if gs.validate r.fields then
        if resp.status_code = 200 then
          match copyback r.schema r.fields resp.body with
          | some f2 => ⟨.ok true, { r with fields := f2 }, [], true⟩
          | none => ⟨.error "ValidationError", r, [], true⟩
        else if resp.status_code = 404 then
          match detailOf resp with
          | some (.str s) => ⟨.ok false, r, [s], true⟩
          | some _ => ⟨.error "TypeError", r, [], true⟩
          | none => ⟨.error "KeyError", r, [], true⟩
        else
          match detailOf resp with
          | some v =>
              ⟨.ok false, { r with status := r.status.error (pyStr v) }, [], true⟩
          | none => ⟨.error "KeyError", r, [], true⟩
      else ⟨.error "ValidationError", r, [], false⟩

/-- `TOOAPIBaseClass.put`: 201 copies response fields back and returns
`True`; any 4xx/5xx propagates `HTTPError` via `raise_for_status`;
other codes fall through to `return False`. -/
def doPut (r : Resource) (resp : Response) : VerbOutcome :=
  match r.put_schema with
  | none => ⟨.ok false, r, ["PUT not allowed for this class."], false⟩
  | some vs =>
      if vs.validate r.fields then
        if resp.status_code = 201 then
          match copyback r.schema r.fields resp.body with
          | some f2 => ⟨.ok true, { r with fields := f2 }, [], true⟩
          | none => ⟨.error "ValidationError", r, [], true⟩
        else if 400 ≤ resp.status_code then
          ⟨.error "HTTPError", r, [], true⟩
        else ⟨.ok false, r, [], true⟩
      else ⟨.error "ValidationError", r, [], false⟩

/-- `TOOAPIBaseClass.post`: 201 copies response fields back and returns
`True`; 200 warns with `detail` and returns `False`; any 4xx/5xx
propagates `HTTPError`. -/
def doPost (r : Resource) (resp : Response) : VerbOutcome :=
  match r.post_schema with
  | none => ⟨.ok false, r, ["POST not allowed for this class."], false⟩
  | some vs =>
      if vs.validate r.fields then
        if resp.status_code = 201 then
          match copyback r.schema r.fields resp.body with
          | some f2 => ⟨.ok true, { r with fields := f2 }, [], true⟩
          | none => ⟨.error "ValidationError", r, [], true⟩
        else if resp.status_code = 200 then
          match detailOf resp with
          | some (.str s) => ⟨.ok false, r, [s], true⟩
          | some _ => ⟨.error "TypeError", r, [], true⟩
          | none => ⟨.error "KeyError", r, [], true⟩
        else if 400 ≤ resp.status_code then
          ⟨.error "HTTPError", r, [], true⟩
        else ⟨.ok false, r, [], true⟩
      else ⟨.error "ValidationError", r, [], false⟩

/-- `TOOAPIBaseClass.delete`: 200 copies response fields back and
returns `True`; any 4xx/5xx propagates `HTTPError`. -/
def doDelete (r : Resource) (resp : Response) : VerbOutcome :=
  match r.del_schema with
  | none => ⟨.ok false, r, ["DELETE not allowed for this class."], false⟩
  | some vs =>
      if vs.validate r.fields then
        if resp.status_code = 200 then
          match copyback r.schema r.fields resp.body with
          | some f2 => ⟨.ok true, { r with fields := f2 }, [], true⟩
          | none => ⟨.error "ValidationError", r, [], true⟩
        else if 400 ≤ resp.status_code then
          ⟨.error "HTTPError", r, [], true⟩
        else ⟨.ok false, r, [], true⟩
      else ⟨.error "ValidationError", r, [], false⟩


/-! ### Date-range schemas (`base/schema.py`, `DateRangeSchema.check_dates`
and `OptionalDateRangeSchema.check_dates`, dict input path)

A Python datetime is embedded as a rational number of seconds and
`timedelta(days=l)` as `86400 * l` seconds, which is exact for the
arithmetic these validators perform.  A dict entry distinguishes "key
absent" (outer `none`) from "key present with value `None`" (inner
`none`), because the validators test key presence with `in` and then
operate on the values.  `convert_to_dt` is the identity on datetimes
and on `None`, which are the only inputs reaching it on these paths. -/

structure DateDict where
  begin_ : Option (Option ℚ)
  end_ : Option (Option ℚ)
  length_ : Option (Option ℚ)
  deriving Repr, DecidableEq

/-- The endpoint-derivation step of `DateRangeSchema.check_dates` (its
`if`/`elif` on key presence). -/
def DateRangeSchema.deriveStep (d : DateDict) :
    Option (Option (Option ℚ) × Option (Option ℚ)) :=
  if d.length_.isSome && d.end_.isSome && d.begin_.isNone then
    match d.end_, d.length_ with
    | some (some e), some (some l) => some (some (some (e - 86400 * l)), d.end_)
    | _, _ => none
  else if d.end_.isNone && d.begin_.isSome && d.length_.isSome then
    match d.begin_, d.length_ with
    | some (some b), some (some l) => some (d.begin_, some (some (b + 86400 * l)))
    | _, _ => none
  else some (d.begin_, d.end_)

/-- `DateRangeSchema.check_dates` on a dict: derive `begin` from
`end`/`length` when the `begin` key is absent, or `end` from
`begin`/`length` when the `end` key is absent; assert both endpoints
present and non-`None`; recompute `length` as
`(end - begin).total_seconds() / 86400`.  `none` is any raised
failure (assertion error or `TypeError` from `None` arithmetic),
which pydantic surfaces as a `ValidationError`. -/
def DateRangeSchema.check_dates (d : DateDict) : Option (ℚ × ℚ × ℚ) :=
  match DateRangeSchema.deriveStep d with
  | some (some (some b), some (some e)) => some (b, e, (e - b) / 86400)
  | _ => none

/-- `OptionalDateRangeSchema.check_dates` on a dict: derive a missing
endpoint from the other endpoint and `length`, but perform no
assertion and never recompute `length`. -/
def OptionalDateRangeSchema.check_dates (d : DateDict) : Option DateDict :=
  if d.length_.isSome && d.end_.isSome && d.begin_.isNone then
    match d.end_, d.length_ with
    | some (some e), some (some l) =>
        some ⟨some (some (e - 86400 * l)), d.end_, d.length_⟩
    | _, _ => none
  else if d.end_.isNone && d.begin_.isSome && d.length_.isSome then
    match d.begin_, d.length_ with
    | some (some b), some (some l) =>
        some ⟨d.begin_, some (some (b + 86400 * l)), d.length_⟩
    | _, _ => none
  else some d

/-! ### Coordinate normalization and range checks (`functions.py`
`coord_convert`; `base/schema.py` `CoordSchema`; `swift/schema.py`
`SwiftTOOSchema` / `SwiftTOOPostSchema` `ra`/`dec` fields)

A coordinate input carries its numeric degree value: a Python
float/int, a numeric string (carrying the value `float(s)` parses to),
an astropy `Quantity` (value after `.to(deg)`), or an astropy
`Longitude`/`Latitude` (its `.value`). -/

inductive CoordInput where
  | pynone
  | num (v : ℚ)
  | numstr (v : ℚ)
  | quantity (v : ℚ)
  | longitude (v : ℚ)
  deriving Repr, DecidableEq

/-- `coord_convert`: `None` passes through, quantities are converted to
degrees, angles yield their value, everything else goes through
`float()`. -/
def coord_convert : CoordInput → Option ℚ
  | .pynone => none
  | .quantity v => some v
  | .longitude v => some v
  | .num v => some v
  | .numstr v => some v

/-- `CoordSchema` validation of an `ra`/`dec` pair: the before-validator
applies `coord_convert` to both, then the field constraints
`ra: Field(ge=0, lt=360)` and `dec: Field(ge=-90, le=90)` apply (both
fields are required, so a `None` is rejected). -/
def CoordSchema.validateCoords (ra dec : CoordInput) : Option (ℚ × ℚ) :=
  match coord_convert ra, coord_convert dec with
  | some r, some d =>
      if 0 ≤ r ∧ r < 360 ∧ -90 ≤ d ∧ d ≤ 90 then some (r, d) else none
  | _, _ => none

/-- `SwiftTOOSchema.ra : Optional[float] = Field(None, ge=0, le=360)`
(and identically `SwiftTOOPostSchema.ra`): the plain float range check
the TOO request schemas apply — no `coord_convert` normalization and an
inclusive upper bound. -/
def SwiftTOOSchema.checkRa : Option ℚ → Bool
  | none => true
  | some r => decide (0 ≤ r) && decide (r ≤ 360)

/-- `SwiftTOOSchema.dec : Optional[float] = Field(None, ge=-90, le=90)`. -/
def SwiftTOOSchema.checkDec : Option ℚ → Bool
  | none => true
  | some d => decide (-90 ≤ d) && decide (d ≤ 90)

/-! ### The visibility query (`swift/visquery.py`, `VisQuery.__init__`,
and its GET schema `VisQueryGetSchema` from `base/schema.py`)

`VisQuery.__init__` sets defaults (`username="anonymous"`, `ra`, `dec`,
`hires`, `length` all `None`, fresh entries list and status envelope),
stores the keyword arguments, then runs
`try: self.validate_get(); self.get() except ValidationError: pass`.
`validate_get` first copies recognized keyword arguments onto the
instance and then validates the GET parameter dict
`{ra, dec, begin, end, length, hires}` (every key present, taken from
the instance attributes) against `VisQueryGetSchema`.

The `begin`/`end`/`length` attributes come from the `TOOAPIDateRange`
mixin, whose file `base/daterange.py` is not in the repository
snapshot.  Modelled from the spec: the date-range capability accepts
either an explicit `(begin, end)` pair or one endpoint plus a length in
days and resolves the remaining member of the `(begin, end, length)`
triple bidirectionally; an unset attribute reads as `None`.  Keyword
arguments that trigger name resolution (`name`, `skycoord`) are outside
this model. -/

structure VisKwargs where
  ra : Option ℚ := none
  dec : Option ℚ := none
  begin_ : Option ℚ := none
  end_ : Option ℚ := none
  length_ : Option ℚ := none
  hires : Option Bool := none
  deriving Repr, DecidableEq

/-- Modelled from the spec: reading `begin` derives it from `end` and
`length` when unset (`base/daterange.py` absent from the snapshot). -/
def drBegin (kw : VisKwargs) : Option ℚ :=
  kw.begin_ <|> (match kw.end_, kw.length_ with
    | some e, some l => some (e - 86400 * l)
    | _, _ => none)

/-- Modelled from the spec: reading `end` derives it from `begin` and
`length` when unset. -/
def drEnd (kw : VisKwargs) : Option ℚ :=
  kw.end_ <|> (match kw.begin_, kw.length_ with
    | some b, some l => some (b + 86400 * l)
    | _, _ => none)

/-- Modelled from the spec: reading `length` derives it from the two
endpoints when unset. -/
def drLength (kw : VisKwargs) : Option ℚ :=
  kw.length_ <|> (match kw.begin_, kw.end_ with
    | some b, some e => some ((e - b) / 86400)
    | _, _ => none)

/-- `VisQueryGetSchema.model_validate(self.get_params)`: the GET
parameter dict has every key present.  `DateRangeSchema.check_dates`
and `CoordSchema.convert_coord` run as before-validators, then the
field constraints apply: `ra`/`dec` required and in range, `begin` and
`end` required datetimes, `hires : bool` (so a `None` value fails). -/
def visQueryGetValidate (kw : VisKwargs) : Bool :=
  let dates := DateRangeSchema.check_dates
    ⟨some (drBegin kw), some (drEnd kw), some (drLength kw)⟩
  let coords := match kw.ra, kw.dec with
    | some r, some d =>
        decide (0 ≤ r) && decide (r < 360) &&
        decide (-90 ≤ d) && decide (d ≤ 90)
    | _, _ => false
  dates.isSome && coords && kw.hires.isSome

structure VisQueryState where
  username : String
  ra : Option ℚ
  dec : Option ℚ
  hires : Option Bool
  begin_ : Option ℚ
  end_ : Option ℚ
  length_ : Option ℚ
  entries : List (ℚ × ℚ)
  status : TOOStatus
  deriving Repr, DecidableEq

/-- Instance state after `__init__`'s defaults and `validate_get`'s
keyword assignment. -/
def visQueryInitialState (kw : VisKwargs) : VisQueryState :=
  { username := "anonymous", ra := kw.ra, dec := kw.dec,
    hires := kw.hires, begin_ := kw.begin_, end_ := kw.end_,
    length_ := kw.length_, entries := [], status := freshTOOStatus }

/-- A simulated server response to the visibility GET, decoded: a 200
body validating against `VisQuerySchema` (entries plus status), a 404
with its `detail`, or another status code with its `detail`. -/
inductive VisResponse where
  | ok (entries : List (ℚ × ℚ)) (st : TOOStatus)
  | notFound (detail : String)
  | other (code : ℕ) (detail : String)
  deriving Repr, DecidableEq

structure VisInitOutcome where
  state : VisQueryState
  networkCalled : Bool
  pywarnings : List String
  deriving Repr, DecidableEq

/-- `VisQuery.__init__`: validate, and submit only when validation
passes; a `ValidationError` is caught and discarded, leaving the
freshly initialized state untouched and dispatching nothing. -/
def VisQuery.init (kw : VisKwargs) (resp : VisResponse) : VisInitOutcome :=
  let s0 := visQueryInitialState kw
  if visQueryGetValidate kw then
    match resp with
    | .ok entries st => ⟨{ s0 with entries := entries, status := st }, true, []⟩
    | .notFound d => ⟨s0, true, [d]⟩
    | .other _ d => ⟨{ s0 with status := s0.status.error d }, true, []⟩
  else ⟨s0, false, []⟩

/-! ### Mission time value (`base/common.py`, class `swiftdatetime`)

The wall-clock reading carried by the `datetime` base is embedded as a
rational; the mutable extras (`utcf`, the cached `_swifttime` and
`_utctime` projections, the `_isutc` flag and its `_isutc_set` latch)
are explicit fields.  `__init__` starts with `utcf=None`, empty caches,
`_isutc=False`, `_isutc_set=False`. -/

structure SwiftDateTime where
  dtval : ℚ
  met : Option ℚ := none
  utcf : Option ℚ := none
  swifttime_c : Option ℚ := none
  utctime_c : Option ℚ := none
  isutc : Bool := false
  isutc_set : Bool := false
  deriving Repr, DecidableEq

/-- State after a successful first `isutc` assignment: flag stored,
both cached projections reset, latch set. -/
def swiftdatetimeAfterSet (s : SwiftDateTime) (utc : Bool) : SwiftDateTime :=
  { s with isutc := utc, swifttime_c := none, utctime_c := none, isutc_set := true }

/-- The `isutc` property setter: when the latch is not yet set, store
the flag, clear both cached projections (assigning `None` through the
`swifttime`/`utctime` setters) and set the latch; otherwise raise
`AttributeError`. -/
def swiftdatetimeSetIsutc (s : SwiftDateTime) (utc : Bool) :
    Except String SwiftDateTime :=
  if s.isutc_set = true then
    .error "Cannot set attribute isutc when previously set."
  else
    .ok (swiftdatetimeAfterSet s utc)

/-! ### Observation identifiers (`base/schema.py` `TargetIdSegment`;
`swift/schema.py` `OptionalSwiftTargetIDSchema`) -/

/-- `TargetIdSegment.obsidsc`: `self.targetid + (self.seg << 24)`. -/
def TargetIdSegment.obsidsc (targetid seg : ℕ) : ℕ :=
  targetid + (seg <<< 24)

/-- `OptionalSwiftTargetIDSchema.target_id`: `obsid & 0xFFFFFF`, with
`None` passing through. -/
def OptionalSwiftTargetIDSchema.target_id : Option ℕ → Option ℕ
  | none => none
  | some obsid => some (obsid &&& 0xFFFFFF)

/-- `OptionalSwiftTargetIDSchema.segment`: `obsid >> 24`, with `None`
passing through. -/
def OptionalSwiftTargetIDSchema.segment : Option ℕ → Option ℕ
  | none => none
  | some obsid => some (obsid >>> 24)

/-! ### The shared class-level status envelope (`base/common.py`
`TOOAPIBaseClass.status`; `swift/uvot.py` `SwiftUVOTMode`)

`TOOAPIBaseClass` binds `status: TOOStatus = TOOStatus()` once, at
class-body execution, as a class attribute.  `SwiftUVOTMode`'s entire
ancestry (`SwiftUVOTModeSchema` → `AutoResolveSchema` →
`SkyCoordSchema`, plus `TOOAPIBaseClass` → `TOOAPIRepresentation`)
consists of plain Python classes — no pydantic `BaseModel` appears in
the MRO and none of them defines `__init__` — so constructing an
instance allocates no envelope and never assigns `self.status`: the
attribute resolves through the MRO to that one class-level `TOOStatus`
object, and `status.error(...)` mutates it in place for every such
instance at once.  Envelope objects live in a heap of cells addressed
by index; erroring through an instance mutates the cell its `status`
reference designates. -/

structure PyWorld where
  cells : List TOOStatus
  classStatusRef : ℕ
  deriving Repr, DecidableEq

structure UVOTModeInst where
  statusRef : ℕ
  deriving Repr, DecidableEq

/-- Construct a `SwiftUVOTMode()`: plain object construction with no
`__init__` in the MRO allocates nothing; reading `self.status` on the
new instance resolves to the single class-level envelope object. -/
def pyNewUVOTMode (w : PyWorld) : PyWorld × UVOTModeInst :=
  (w, ⟨w.classStatusRef⟩)

/-- Read `inst.status`. -/
def statusOf (w : PyWorld) (i : UVOTModeInst) : TOOStatus :=
  w.cells.getD i.statusRef freshTOOStatus

/-- `inst.status.error(msg)`: mutate the envelope object the instance
references. -/
def errorVia (w : PyWorld) (i : UVOTModeInst) (msg : String) : PyWorld :=
  ⟨w.cells.set i.statusRef ((w.cells.getD i.statusRef freshTOOStatus).error msg),
   w.classStatusRef⟩

/-! ### Concrete sample instances used to evaluate the theorems -/

/-- A verb schema whose parameter validation succeeds on any instance
state (standing in for a resource whose current attributes satisfy its
GET schema). -/
def alwaysValid : VerbSchema := ⟨fun _ => true⟩

/-- A resource whose attributes satisfy its GET schema, mirroring a
`Resolve`-like resource with one prior field value. -/
def sampleGetRes : Resource :=
  { fields := [("ra", .num 83)], status := freshTOOStatus,
    schema := [⟨"entries", true, .null⟩],
    get_schema := some alwaysValid, put_schema := none,
    post_schema := none, del_schema := none }

/-- A simulated 404 response carrying a `detail` message. -/
def notFoundResp : Response := ⟨404, [("detail", .str "not found")]⟩

/-- A resource whose response schema declares two optional fields
(`SwiftResolveSchema`-like: `ra` and `resolver`, both defaulting to
`None`), with a prior `ra` value and an undeclared `username`
attribute. -/
def resolveLikeRes : Resource :=
  { fields := [("ra", .num 83), ("username", .str "anonymous")],
    status := freshTOOStatus,
    schema := [⟨"ra", false, .null⟩, ⟨"resolver", false, .null⟩],
    get_schema := some alwaysValid, put_schema := none,
    post_schema := none, del_schema := none }

/-- A simulated 200 response whose body mentions `resolver` but not
`ra`. -/
def resolverOnlyResp : Response := ⟨200, [("resolver", .str "Simbad")]⟩

/-- A resource declaring no verb schema at all (like `SwiftUVOTMode`,
which declares only `_get_schema`, restricted here to no verbs to
exercise every `not allowed` path). -/
def noVerbRes : Resource :=
  { fields := [], status := freshTOOStatus, schema := [],
    get_schema := none, put_schema := none, post_schema := none,
    del_schema := none }

/-- Construct two `SwiftUVOTMode()` instances in sequence, returning
the final world and both instances. -/
def uvotTwice (w : PyWorld) : PyWorld × UVOTModeInst × UVOTModeInst :=
  let p1 := pyNewUVOTMode w
  let p2 := pyNewUVOTMode p1.1
  (p2.1, p1.2, p2.2)

/-- Initial world: the single class-level envelope of
`TOOAPIBaseClass.status`, fresh. -/
def classWorld : PyWorld := ⟨[freshTOOStatus], 0⟩

/-! Helper lemmas about lookup, assignment and copy-back. -/

theorem lookupA_mem_keys (l : AttrDict) (k : String) (v : JValue)
    (h : lookupA l k = some v) : k ∈ l.map Prod.fst := by
  induction l with
  | nil => simp [lookupA] at h
  | cons hd t ih =>
      by_cases hk : hd.1 = k
      · simp [hk]
      · simp only [lookupA, hk, if_false] at h
        simp [ih h]

theorem lookupA_setA_self (l : AttrDict) (k : String) (v : JValue) :
    lookupA (setA l k v) k = some v := by
  induction l with
  | nil => simp [setA, lookupA]
  | cons hd t ih =>
      by_cases h : hd.1 = k
      · simp [setA, h, lookupA]
      · simp [setA, h, lookupA, ih]

theorem lookupA_setA_ne (l : AttrDict) (k k' : String) (v : JValue)
    (h : k ≠ k') : lookupA (setA l k v) k' = lookupA l k' := by
  induction l with
  | nil => simp [setA, lookupA, h]
  | cons hd t ih =>
      by_cases hk : hd.1 = k
      · simp [setA, hk, lookupA, h]
      · simp [setA, hk, lookupA, ih]

theorem applyFields_not_mem (fields : AttrDict)
    (kvs : List (String × JValue)) (k : String)
    (h : k ∉ kvs.map Prod.fst) :
    lookupA (applyFields fields kvs) k = lookupA fields k := by
  induction kvs generalizing fields with
  | nil => rfl
  | cons hd t ih =>
      simp only [List.map_cons, List.mem_cons] at h
      push_neg at h
      show lookupA (applyFields (setA fields hd.1 hd.2) t) k = _
      rw [ih _ h.2, lookupA_setA_ne _ _ _ _ (fun he => h.1 he.symm)]

theorem applyFields_mem (fields : AttrDict)
    (kvs : List (String × JValue)) (k : String) (v : JValue)
    (hnd : (kvs.map Prod.fst).Nodup) (hmem : (k, v) ∈ kvs) :
    lookupA (applyFields fields kvs) k = some v := by
  induction kvs generalizing fields with
  | nil => cases hmem
  | cons hd t ih =>
      simp only [List.map_cons, List.nodup_cons] at hnd
      rcases List.mem_cons.mp hmem with heq | ht
      · subst heq
        show lookupA (applyFields (setA fields k v) t) k = some v
        rw [applyFields_not_mem _ _ _ hnd.1, lookupA_setA_self]
      · exact ih _ hnd.2 ht

theorem validateResponse_keys (sch : RespSchema) (body : AttrDict)
    (kvs : List (String × JValue))
    (h : validateResponse sch body = some kvs) :
    kvs.map Prod.fst = sch.map FieldSpec.name := by
  induction sch generalizing kvs with
  | nil => simp [validateResponse] at h; simp [h.symm]
  | cons f rest ih =>
      simp only [validateResponse] at h
      rcases hl : lookupA body f.name with _ | v
      · rcases hr : f.required with _ | _
        · simp only [hl, hr, if_false] at h
          rcases hv : validateResponse rest body with _ | tl
          · rw [hv] at h; cases h
          · rw [hv] at h
            cases h
            simp [ih tl hv]
        · simp [hl, hr] at h
      · simp only [hl] at h
        rcases hv : validateResponse rest body with _ | tl
        · rw [hv] at h; cases h
        · rw [hv] at h
          cases h
          simp [ih tl hv]

theorem validateResponse_mem (sch : RespSchema) (body : AttrDict)
    (kvs : List (String × JValue)) (f : FieldSpec)
    (h : validateResponse sch body = some kvs) (hf : f ∈ sch) :
    (f.name,
      match lookupA body f.name with
      | some v => v
      | none => f.default) ∈ kvs := by
  induction sch generalizing kvs with
  | nil => cases hf
  | cons g rest ih =>
      simp only [validateResponse] at h
      rcases hv : validateResponse rest body with _ | tl
      · rw [hv] at h
        rcases lookupA body g.name with _ | w
        · rcases g.required <;> simp at h
        · simp at h
      · rw [hv] at h
        rcases List.mem_cons.mp hf with heq | ht
        · subst heq
          rcases hl : lookupA body f.name with _ | w
          · rcases hr : f.required with _ | _
            · simp only [hl, hr, if_false] at h
              cases h
              simp
            · simp [hl, hr] at h
          · simp only [hl] at h
            cases h
            simp
        · have := ih tl hv ht
          rcases hl : lookupA body g.name with _ | w
          · rcases hr : g.required with _ | _
            · simp only [hl, hr, if_false] at h
              cases h
              exact List.mem_cons_of_mem _ this
            · simp [hl, hr] at h
          · simp only [hl] at h
            cases h
            exact List.mem_cons_of_mem _ this

theorem validateResponse_required_absent (sch : RespSchema)
    (body : AttrDict) (f : FieldSpec) (hf : f ∈ sch)
    (hreq : f.required = true) (habs : lookupA body f.name = none) :
    validateResponse sch body = none := by
  induction sch with
  | nil => cases hf
  | cons g rest ih =>
      rcases List.mem_cons.mp hf with heq | ht
      · subst heq
        simp [validateResponse, habs, hreq]
      · simp only [validateResponse, ih ht]
        rcases lookupA body g.name with _ | w
        · rcases g.required <;> simp
        · simp

theorem copyback_present (sch : RespSchema) (fields body f2 : AttrDict)
    (hnd : (sch.map FieldSpec.name).Nodup)
    (hcopy : copyback sch fields body = some f2)
    (k : String) (v : JValue) (hk : k ∈ sch.map FieldSpec.name)
    (hl : lookupA body k = some v) : lookupA f2 k = some v := by
  rcases hv : validateResponse sch body with _ | kvs
  · simp [copyback, hv] at hcopy
  · simp only [copyback, hv, Option.map_some'] at hcopy
    rcases List.mem_map.mp hk with ⟨f, hf, hfk⟩
    subst hfk
    have hmem := validateResponse_mem sch body kvs f hv hf
    rw [hl] at hmem
    have hkeys := validateResponse_keys sch body kvs hv
    obtain rfl := Option.some.inj hcopy
    exact applyFields_mem fields kvs f.name v (hkeys ▸ hnd) hmem

theorem copyback_default (sch : RespSchema) (fields body f2 : AttrDict)
    (hnd : (sch.map FieldSpec.name).Nodup)
    (hcopy : copyback sch fields body = some f2)
    (f : FieldSpec) (hf : f ∈ sch)
    (habs : lookupA body f.name = none) :
    f.required = false ∧ lookupA f2 f.name = some f.default := by
  rcases hv : validateResponse sch body with _ | kvs
  · simp [copyback, hv] at hcopy
  · simp only [copyback, hv, Option.map_some'] at hcopy
    have hreq : f.required = false := by
      rcases hr : f.required with _ | _
      · rfl
      · exact absurd hv (by
          rw [validateResponse_required_absent sch body f hf hr habs]
          simp)
    have hmem := validateResponse_mem sch body kvs f hv hf
    rw [habs] at hmem
    have hkeys := validateResponse_keys sch body kvs hv
    obtain rfl := Option.some.inj hcopy
    exact ⟨hreq, applyFields_mem fields kvs f.name f.default (hkeys ▸ hnd) hmem⟩

theorem copyback_frame (sch : RespSchema) (fields body f2 : AttrDict)
    (hcopy : copyback sch fields body = some f2)
    (k : String) (hk : k ∉ sch.map FieldSpec.name) :
    lookupA f2 k = lookupA fields k := by
  rcases hv : validateResponse sch body with _ | kvs
  · simp [copyback, hv] at hcopy
  · simp only [copyback, hv, Option.map_some'] at hcopy
    have hkeys := validateResponse_keys sch body kvs hv
    obtain rfl := Option.some.inj hcopy
    exact applyFields_not_mem fields kvs k (hkeys ▸ hk)

theorem TOOStatus.error_status_rejected (s : TOOStatus) (e : String)
    (h : s.Reachable) : (s.error e).status = "Rejected" := by
  unfold TOOStatus.error
  by_cases he : e ∈ s.errors
  · simp only [he, if_true]
    exact h.2 (List.ne_nil_of_mem he)
  · simp [he]

theorem TOOStatus.mem_error_errors (s : TOOStatus) (e : String) :
    e ∈ (s.error e).errors := by
  unfold TOOStatus.error
  by_cases he : e ∈ s.errors <;> simp [he]

/-! ## Claim theorems -/

/-- Claim C4, counterexample: the claim quantifies over every prior
envelope state, but on the directly constructible envelope
`TOOStatus(status="Accepted", errors=["x"])` the message `"x"` is
already present, so both `error("x")` calls are no-ops and the status
stays `"Accepted"` instead of the claimed `"Rejected"`. -/
theorem c4_cex :
    ((({ status := "Accepted", errors := ["x"] } : TOOStatus).error "x").error
        "x").status ≠ "Rejected" := by
  decide

/-- Claim C4 (amended): on every envelope whose state its own
operations can produce (duplicate-free errors, nonempty errors forcing
`"Rejected"`), calling `error("x")` twice yields exactly one `"x"` in
the error list and status `"Rejected"`; calling `warning(m)` appends
`m` at most once (a repeated call is a no-op) and never changes the
status field, for every message and every envelope. -/
theorem c4_status_envelope (s : TOOStatus) (x m : String)
    (h : s.Reachable) :
    (((s.error x).error x).errors.count x = 1 ∧
      ((s.error x).error x).status = "Rejected") ∧
    ((s.warning m).status = s.status ∧
      (s.warning m).warnings.count m ≤ s.warnings.count m + 1 ∧
      (s.warning m).warning m = s.warning m) := by
  refine ⟨?_, ?_, ?_, ?_⟩
  · by_cases hx : x ∈ s.errors
    · simp only [TOOStatus.error, hx, if_true]
      constructor
      · exact List.count_eq_one_of_mem h.1 hx
      · exact h.2 (List.ne_nil_of_mem hx)
    · simp only [TOOStatus.error, hx, if_false]
      have hx2 : x ∈ s.errors ++ [x] := by simp
      simp only [hx2, if_true]
      constructor
      · simp [List.count_append, List.count_eq_zero_of_not_mem hx]
      · trivial
  · by_cases hm : m ∈ s.warnings <;> simp [TOOStatus.warning, hm]
  · by_cases hm : m ∈ s.warnings
    · simp [TOOStatus.warning, hm]
    · simp [TOOStatus.warning, hm, List.count_append,
        List.count_eq_zero_of_not_mem hm]
  · by_cases hm : m ∈ s.warnings
    · simp [TOOStatus.warning, hm]
    · have hm2 : m ∈ s.warnings ++ [m] := by simp
      simp [TOOStatus.warning, hm, hm2]

/-- Witness for C4's amended theorem at the fresh envelope. -/
theorem c4_status_envelope_witness :
    freshTOOStatus.Reachable ∧
    ((freshTOOStatus.error "x").error "x").errors.count "x" = 1 ∧
    ((freshTOOStatus.error "x").error "x").status = "Rejected" ∧
    (freshTOOStatus.warning "y").status = freshTOOStatus.status := by
  have h := c4_status_envelope freshTOOStatus "x" "y" (by decide)
  exact ⟨by decide, h.1.1, h.1.2, h.2.1⟩

/-- Claim C2: for every dispatched GET — a 200 response copies every
field present in the decoded JSON onto the instance (here stated for
bodies whose keys are declared by the response schema, which is how the
service answers) and the call returns true; a 404 response records a
warning carrying the server-provided `detail` message, overwrites no
instance field, and returns false; any other non-200 status appends
the `detail` message as an error (a fresh message forcing status
`"Rejected"`), raises nothing, and returns false. -/
theorem c2_get_response_handling (r : Resource) (gs : VerbSchema)
    (resp : Response) (hgs : r.get_schema = some gs)
    (hval : gs.validate r.fields = true) :
    (∀ f2, resp.status_code = 200 →
      copyback r.schema r.fields resp.body = some f2 →
      (doGet r resp).result = .ok true ∧ (doGet r resp).res.fields = f2 ∧
      ((r.schema.map FieldSpec.name).Nodup →
        (∀ k, k ∈ resp.body.map Prod.fst → k ∈ r.schema.map FieldSpec.name) →
        ∀ k v, lookupA resp.body k = some v → lookupA f2 k = some v)) ∧
    (∀ d, resp.status_code = 404 → detailOf resp = some (.str d) →
      (doGet r resp).result = .ok false ∧ (doGet r resp).pywarnings = [d] ∧
      (doGet r resp).res = r) ∧
    (∀ d, resp.status_code ≠ 200 → resp.status_code ≠ 404 →
      detailOf resp = some (.str d) →
      (doGet r resp).result = .ok false ∧
      (doGet r resp).res.fields = r.fields ∧
      (doGet r resp).res.status = r.status.error d ∧
      (d ∉ r.status.errors → (doGet r resp).res.status.status = "Rejected") ∧
      (doGet r resp).pywarnings = []) := by
  refine ⟨fun f2 h200 hcopy => ?_, fun d h404 hdet => ?_,
    fun d h200 h404 hdet => ?_⟩
  · simp only [doGet, hgs, hval, if_true, h200, hcopy]
    refine ⟨trivial, trivial, fun hnd hsub k v hl => ?_⟩
    exact copyback_present r.schema r.fields resp.body f2 hnd hcopy k v
      (hsub k (lookupA_mem_keys resp.body k v hl)) hl
  · have h200 : resp.status_code ≠ 200 := by omega
    simp [doGet, hgs, hval, h200, h404, hdet]
  · simp only [doGet, hgs, hval, if_true, h200, if_false, h404, hdet]
    refine ⟨trivial, trivial, rfl, fun hmem => ?_, trivial⟩
    simp [TOOStatus.error, pyStr, hmem]

/-- Witness for C2 at a concrete resource and simulated 404 response. -/
theorem c2_get_response_handling_witness :
    (doGet sampleGetRes notFoundResp).result = .ok false ∧
    (doGet sampleGetRes notFoundResp).pywarnings = ["not found"] ∧
    (doGet sampleGetRes notFoundResp).res = sampleGetRes :=
  (c2_get_response_handling sampleGetRes alwaysValid notFoundResp rfl
    rfl).2.1 "not found" rfl rfl

/-- Claim C3, counterexample: on a 200 GET against a response schema
declaring `ra` as optional with default `None`, a body that omits `ra`
does not leave the prior `ra` value untouched — the copy-back loop
iterates the validated model, whose absent fields carry their schema
defaults, and overwrites `ra` with `None`. -/
theorem c3_cex :
    lookupA (doGet resolveLikeRes resolverOnlyResp).res.fields "ra" =
      some JValue.null ∧
    lookupA resolveLikeRes.fields "ra" = some (JValue.num 83) ∧
    JValue.null ≠ JValue.num 83 := by
  refine ⟨by rfl, by rfl, by decide⟩

/-- Claim C3 (amended): after every successful field-copy-back step,
every field declared by the response schema is overwritten — with the
response JSON's value when the key is present, and with the schema
default when an optional field's key is absent (a required field absent
from the response fails validation instead, so no copy-back happens) —
while every instance field not declared by the response schema keeps
exactly the value it had before the call. -/
theorem c3_copyback_overwrites (sch : RespSchema)
    (fields body f2 : AttrDict)
    (hnd : (sch.map FieldSpec.name).Nodup)
    (hcopy : copyback sch fields body = some f2) :
    (∀ f ∈ sch,
      (∀ v, lookupA body f.name = some v → lookupA f2 f.name = some v) ∧
      (lookupA body f.name = none →
        f.required = false ∧ lookupA f2 f.name = some f.default)) ∧
    (∀ k, k ∉ sch.map FieldSpec.name → lookupA f2 k = lookupA fields k) := by
  refine ⟨fun f hf => ⟨fun v hl => ?_, fun habs => ?_⟩, fun k hk => ?_⟩
  · exact copyback_present sch fields body f2 hnd hcopy f.name v
      (List.mem_map.mpr ⟨f, hf, rfl⟩) hl
  · exact copyback_default sch fields body f2 hnd hcopy f hf habs
  · exact copyback_frame sch fields body f2 hcopy k hk

/-- Witness for C3's amended theorem on the concrete resolve-like
resource: `resolver` takes the body's value, `ra` (absent, optional)
takes its default, and the undeclared `username` keeps its value. -/
theorem c3_copyback_overwrites_witness :
    lookupA (applyFields resolveLikeRes.fields
        [("ra", JValue.null), ("resolver", JValue.str "Simbad")])
      "username" = some (JValue.str "anonymous") := by
  have h := c3_copyback_overwrites resolveLikeRes.schema
    resolveLikeRes.fields resolverOnlyResp.body
    (applyFields resolveLikeRes.fields
      [("ra", JValue.null), ("resolver", JValue.str "Simbad")])
    (by decide) (by rfl)
  have := h.2 "username" (by decide)
  rw [this]
  rfl

/-- Claim C7: for every resource and every verb among
GET/PUT/POST/DELETE whose schema the resource does not declare, the
call returns boolean false (no exception reaches the caller), emits
the corresponding "not allowed" warning, leaves the resource untouched,
and performs no network call. -/
theorem c7_verb_not_declared (r : Resource) (resp : Response) :
    (r.get_schema = none → doGet r resp =
      ⟨.ok false, r, ["GET not allowed for this class."], false⟩) ∧
    (r.put_schema = none → doPut r resp =
      ⟨.ok false, r, ["PUT not allowed for this class."], false⟩) ∧
    (r.post_schema = none → doPost r resp =
      ⟨.ok false, r, ["POST not allowed for this class."], false⟩) ∧
    (r.del_schema = none → doDelete r resp =
      ⟨.ok false, r, ["DELETE not allowed for this class."], false⟩) := by
  refine ⟨fun h => ?_, fun h => ?_, fun h => ?_, fun h => ?_⟩ <;>
    simp [doGet, doPut, doPost, doDelete, h]

/-- Witness for C7 on a resource declaring no verb schemas. -/
theorem c7_verb_not_declared_witness :
    doGet noVerbRes ⟨200, []⟩ =
      ⟨.ok false, noVerbRes, ["GET not allowed for this class."], false⟩ ∧
    doPut noVerbRes ⟨200, []⟩ =
      ⟨.ok false, noVerbRes, ["PUT not allowed for this class."], false⟩ ∧
    doPost noVerbRes ⟨200, []⟩ =
      ⟨.ok false, noVerbRes, ["POST not allowed for this class."], false⟩ ∧
    doDelete noVerbRes ⟨200, []⟩ =
      ⟨.ok false, noVerbRes, ["DELETE not allowed for this class."], false⟩ := by
  have h := c7_verb_not_declared noVerbRes ⟨200, []⟩
  exact ⟨h.1 rfl, h.2.1 rfl, h.2.2.1 rfl, h.2.2.2 rfl⟩

/-- Claim C1, counterexample: a visibility query constructed with no
search parameters at all makes no network call, but its status after
construction is `"Accepted"`, not the claimed `"Rejected"` — the
`ValidationError` is caught by `except ValidationError: pass` and the
fresh envelope is never touched. -/
theorem c1_cex :
    (VisQuery.init {} (.ok [] freshTOOStatus)).state.status.status ≠ "Rejected" ∧
    (VisQuery.init {} (.ok [] freshTOOStatus)).state.status.status = "Accepted" ∧
    (VisQuery.init {} (.ok [] freshTOOStatus)).networkCalled = false := by
  decide

/-- Claim C1 (amended): for every visibility-query construction whose
arguments fail the GET-schema validation, no network call is made and
the resource's status after construction is the untouched fresh
`"Accepted"` envelope (the validation error is swallowed by the
constructor), whatever response the server would have given. -/
theorem c1_validation_failure (kw : VisKwargs) (resp : VisResponse)
    (h : visQueryGetValidate kw = false) :
    (VisQuery.init kw resp).networkCalled = false ∧
    (VisQuery.init kw resp).state = visQueryInitialState kw ∧
    (VisQuery.init kw resp).state.status = freshTOOStatus := by
  refine ⟨?_, ?_, ?_⟩ <;> simp [VisQuery.init, h, visQueryInitialState]

/-- Witness for C1's amended theorem: the empty-argument construction
fails validation. -/
theorem c1_validation_failure_witness :
    visQueryGetValidate {} = false ∧
    (VisQuery.init {} (.notFound "x")).networkCalled = false ∧
    (VisQuery.init {} (.notFound "x")).state.status = freshTOOStatus := by
  have h := c1_validation_failure {} (.notFound "x") (by decide)
  exact ⟨by decide, h.1, h.2.2⟩

/-- Claim C5, counterexample: `OptionalDateRangeSchema.check_dates`, on
an input supplying `begin` and `end` (two of the three), returns with
the `length` key still absent — the third member is not derived, so the
resolved triple does not carry `length == (end - begin)` days. -/
theorem c5_cex :
    OptionalDateRangeSchema.check_dates
        ⟨some (some 0), some (some 86400), none⟩ =
      some ⟨some (some 0), some (some 86400), none⟩ := by
  decide

/-- Claim C5 (amended): for `DateRangeSchema` (the required date-range
schema), every input supplying exactly two of `{begin, end, length}`
deterministically derives the third, and every successfully validated
triple satisfies `(end - begin) == length` days exactly;
`OptionalDateRangeSchema` only derives a missing endpoint, never
`length`. -/
theorem c5_date_range_derivation (b e l : ℚ) :
    DateRangeSchema.check_dates ⟨some (some b), some (some e), none⟩ =
      some (b, e, (e - b) / 86400) ∧
    DateRangeSchema.check_dates ⟨none, some (some e), some (some l)⟩ =
      some (e - 86400 * l, e, l) ∧
    DateRangeSchema.check_dates ⟨some (some b), none, some (some l)⟩ =
      some (b, b + 86400 * l, l) ∧
    (∀ dd bb ee ll, DateRangeSchema.check_dates dd = some (bb, ee, ll) →
      ee - bb = 86400 * ll) := by
  have h86400 : (86400 : ℚ) ≠ 0 := by norm_num
  refine ⟨rfl, ?_, ?_, ?_⟩
  · show some (e - 86400 * l, e, (e - (e - 86400 * l)) / 86400) = _
    have harith : (e - (e - 86400 * l)) / 86400 = l := by
      rw [show e - (e - 86400 * l) = 86400 * l by ring,
        mul_div_cancel_left₀ _ h86400]
    rw [harith]
  · show some (b, b + 86400 * l, (b + 86400 * l - b) / 86400) = _
    have harith : (b + 86400 * l - b) / 86400 = l := by
      rw [show b + 86400 * l - b = 86400 * l by ring,
        mul_div_cancel_left₀ _ h86400]
    rw [harith]
  · intro dd bb ee ll hd
    unfold DateRangeSchema.check_dates at hd
    rcases hs : DateRangeSchema.deriveStep dd with _ | p
    · rw [hs] at hd; cases hd
    · rw [hs] at hd
      rcases p with ⟨b?, e?⟩
      rcases b? with _ | b2
      · cases hd
      · rcases b2 with _ | b3
        · cases hd
        · rcases e? with _ | e2
          · cases hd
          · rcases e2 with _ | e3
            · cases hd
            · simp only [Option.some.injEq, Prod.mk.injEq] at hd
              obtain ⟨rfl, rfl, rfl⟩ := hd
              field_simp

/-- Witness for C5's amended theorem at `begin = 0`,
`end = 86400 s` (one day). -/
theorem c5_date_range_derivation_witness :
    DateRangeSchema.check_dates ⟨some (some 0), some (some 86400), none⟩ =
      some (0, 86400, 1) ∧
    (86400 : ℚ) - 0 = 86400 * 1 := by
  have h1 := (c5_date_range_derivation 0 86400 1).1
  rw [show ((86400 : ℚ) - 0) / 86400 = 1 from by norm_num] at h1
  exact ⟨h1, (c5_date_range_derivation 0 86400 1).2.2.2
    ⟨some (some 0), some (some 86400), none⟩ 0 86400 1 h1⟩

/-- Claim C6, counterexample: the TOO request schemas
(`SwiftTOOSchema.ra` and `SwiftTOOPostSchema.ra` use
`Field(ge=0, le=360)`) accept a right ascension of exactly 360 degrees,
violating the claimed `0 ≤ ra < 360` bound. -/
theorem c6_cex :
    SwiftTOOSchema.checkRa (some 360) = true ∧ ¬ ((360 : ℚ) < 360) := by
  exact ⟨by decide, by norm_num⟩

/-- Claim C6 (amended): coordinate fields declared via `CoordSchema`
normalize numeric, numeric-string and external angle-quantity inputs to
a plain degree float and accept exactly `0 ≤ ra < 360`,
`-90 ≤ dec ≤ 90`; the TOO request schemas instead range-check plain
optional floats with an inclusive `0 ≤ ra ≤ 360` (so `ra = 360` is
accepted there) and `-90 ≤ dec ≤ 90`, without `coord_convert`
normalization. -/
theorem c6_coord_ranges :
    (∀ ra dec (r d : ℚ),
      CoordSchema.validateCoords ra dec = some (r, d) ↔
        (coord_convert ra = some r ∧ coord_convert dec = some d ∧
          0 ≤ r ∧ r < 360 ∧ -90 ≤ d ∧ d ≤ 90)) ∧
    (∀ q : ℚ, SwiftTOOSchema.checkRa (some q) = true ↔ (0 ≤ q ∧ q ≤ 360)) ∧
    (∀ q : ℚ, SwiftTOOSchema.checkDec (some q) = true ↔ (-90 ≤ q ∧ q ≤ 90)) := by
  refine ⟨fun ra dec r d => ?_, fun q => ?_, fun q => ?_⟩
  · constructor
    · intro h
      unfold CoordSchema.validateCoords at h
      rcases hra : coord_convert ra with _ | r0 <;> rw [hra] at h
      · cases h
      · rcases hdec : coord_convert dec with _ | d0 <;> rw [hdec] at h
        · cases h
        · change (if 0 ≤ r0 ∧ r0 < 360 ∧ -90 ≤ d0 ∧ d0 ≤ 90
              then some (r0, d0) else none) = some (r, d) at h
          split_ifs at h with hcond
          · simp only [Option.some.injEq, Prod.mk.injEq] at h
            obtain ⟨rfl, rfl⟩ := h
            exact ⟨rfl, rfl, hcond.1, hcond.2.1, hcond.2.2.1, hcond.2.2.2⟩
    · rintro ⟨h1, h2, h3, h4, h5, h6⟩
      unfold CoordSchema.validateCoords
      rw [h1, h2]
      simp [h3, h4, h5, h6]
  · unfold SwiftTOOSchema.checkRa
    simp [Bool.and_eq_true, decide_eq_true_iff]
  · unfold SwiftTOOSchema.checkDec
    simp [Bool.and_eq_true, decide_eq_true_iff]

/-- Witness for C6's amended theorem at concrete coordinates. -/
theorem c6_coord_ranges_witness :
    CoordSchema.validateCoords (.num 83) (.num 22) = some (83, 22) ∧
    SwiftTOOSchema.checkRa (some 100) = true := by
  constructor
  · exact (c6_coord_ranges.1 (.num 83) (.num 22) 83 22).mpr
      ⟨rfl, rfl, by norm_num, by norm_num, by norm_num, by norm_num⟩
  · exact (c6_coord_ranges.2.1 100).mpr ⟨by norm_num, by norm_num⟩

/-- Claim C8: the `isutc` flag of a `swiftdatetime` is assignable
exactly once — from a fresh instance (latch unset) the first assignment
succeeds, storing the flag and resetting both cached time-base
projections, and any second assignment raises `AttributeError`
regardless of the value assigned. -/
theorem c8_isutc_set_once (s : SwiftDateTime) (v1 v2 : Bool)
    (h : s.isutc_set = false) :
    swiftdatetimeSetIsutc s v1 = .ok (swiftdatetimeAfterSet s v1) ∧
    (swiftdatetimeAfterSet s v1).isutc = v1 ∧
    (swiftdatetimeAfterSet s v1).swifttime_c = none ∧
    (swiftdatetimeAfterSet s v1).utctime_c = none ∧
    ∀ t, swiftdatetimeSetIsutc s v1 = .ok t →
      swiftdatetimeSetIsutc t v2 =
        .error "Cannot set attribute isutc when previously set." := by
  have h1 : swiftdatetimeSetIsutc s v1 = .ok (swiftdatetimeAfterSet s v1) := by
    simp [swiftdatetimeSetIsutc, h]
  refine ⟨h1, rfl, rfl, rfl, fun t ht => ?_⟩
  rw [h1] at ht
  injection ht with ht2
  rw [← ht2]
  simp [swiftdatetimeSetIsutc, swiftdatetimeAfterSet]

/-- Witness for C8 on a fresh `swiftdatetime`. -/
theorem c8_isutc_set_once_witness :
    ({ dtval := 0 } : SwiftDateTime).isutc_set = false ∧
    swiftdatetimeSetIsutc { dtval := 0 } true =
      .ok (swiftdatetimeAfterSet { dtval := 0 } true) ∧
    swiftdatetimeSetIsutc (swiftdatetimeAfterSet { dtval := 0 } true) false =
      .error "Cannot set attribute isutc when previously set." := by
  have h := c8_isutc_set_once ({ dtval := 0 } : SwiftDateTime) true false rfl
  exact ⟨rfl, h.1, h.2.2.2.2 _ h.1⟩

/-- Claim C10: encoding a target id below `2^24` and any segment into
the spacecraft observation id `targetid + (seg << 24)` and decoding via
`obsid & 0xFFFFFF` and `obsid >> 24` recovers exactly the original
pair. -/
theorem c10_obsid_roundtrip (t s : ℕ) (h : t < 2 ^ 24) :
    OptionalSwiftTargetIDSchema.target_id
        (some (TargetIdSegment.obsidsc t s)) = some t ∧
    OptionalSwiftTargetIDSchema.segment
        (some (TargetIdSegment.obsidsc t s)) = some s := by
  have hsc : TargetIdSegment.obsidsc t s = t + s * 16777216 := by
    unfold TargetIdSegment.obsidsc
    rw [Nat.shiftLeft_eq]
  have h2 : t < 16777216 := by omega
  have hmod : (t + s * 16777216) &&& 0xFFFFFF = t := by
    rw [show (0xFFFFFF : ℕ) = 2 ^ 24 - 1 from by norm_num,
      Nat.and_pow_two_sub_one_eq_mod]
    rw [show (2 : ℕ) ^ 24 = 16777216 from by norm_num]
    omega
  have hdiv : (t + s * 16777216) >>> 24 = s := by
    rw [Nat.shiftRight_eq_div_pow]
    rw [show (2 : ℕ) ^ 24 = 16777216 from by norm_num]
    omega
  constructor
  · show some (TargetIdSegment.obsidsc t s &&& 0xFFFFFF) = some t
    rw [hsc, hmod]
  · show some (TargetIdSegment.obsidsc t s >>> 24) = some s
    rw [hsc, hdiv]

/-- Witness for C10 at `targetid = 5`, `seg = 3`. -/
theorem c10_obsid_roundtrip_witness :
    (5 : ℕ) < 2 ^ 24 ∧
    OptionalSwiftTargetIDSchema.target_id
        (some (TargetIdSegment.obsidsc 5 3)) = some 5 ∧
    OptionalSwiftTargetIDSchema.segment
        (some (TargetIdSegment.obsidsc 5 3)) = some 3 := by
  have h := c10_obsid_roundtrip 5 3 (by norm_num)
  exact ⟨by norm_num, h.1, h.2⟩

/-- Claim C9: `TOOAPIBaseClass` binds `status` as a class attribute to
a single `TOOStatus` instance, so any two instances of a resource class
that never assigns `self.status` in its own constructor (for example
`SwiftUVOTMode`, whose MRO contains no pydantic model and no
`__init__`) share that one envelope object: recording an error through
one such instance makes the other report status `"Rejected"` and the
very same error list, now containing the message.  The hypotheses state
that the class-level envelope exists on the heap and is in a state the
envelope's own operations produce — as it is in the program, where it
starts fresh at class creation. -/
theorem c9_shared_envelope (w : PyWorld) (msg : String)
    (href : w.classStatusRef < w.cells.length)
    (hreach : (w.cells.getD w.classStatusRef freshTOOStatus).Reachable) :
    (uvotTwice w).2.1.statusRef = (uvotTwice w).2.2.statusRef ∧
    statusOf (errorVia (uvotTwice w).1 (uvotTwice w).2.1 msg)
        (uvotTwice w).2.2 =
      (w.cells.getD w.classStatusRef freshTOOStatus).error msg ∧
    (statusOf (errorVia (uvotTwice w).1 (uvotTwice w).2.1 msg)
        (uvotTwice w).2.2).status = "Rejected" ∧
    (statusOf (errorVia (uvotTwice w).1 (uvotTwice w).2.1 msg)
        (uvotTwice w).2.2).errors =
      (statusOf (errorVia (uvotTwice w).1 (uvotTwice w).2.1 msg)
        (uvotTwice w).2.1).errors ∧
    msg ∈ (statusOf (errorVia (uvotTwice w).1 (uvotTwice w).2.1 msg)
        (uvotTwice w).2.2).errors := by
  have hmut : statusOf (errorVia (uvotTwice w).1 (uvotTwice w).2.1 msg)
      (uvotTwice w).2.2 =
      (w.cells.getD w.classStatusRef freshTOOStatus).error msg := by
    simp only [uvotTwice, pyNewUVOTMode, statusOf, errorVia,
      List.getD_eq_getElem?_getD]
    rw [List.getElem?_set_self (by simpa using href)]
    rfl
  refine ⟨rfl, hmut, ?_, rfl, ?_⟩
  · rw [hmut]
    exact TOOStatus.error_status_rejected _ msg hreach
  · rw [hmut]
    exact TOOStatus.mem_error_errors _ msg

/-- Witness for C9 on the initial world holding the single fresh
class-level envelope of `TOOAPIBaseClass.status`. -/
theorem c9_shared_envelope_witness :
    classWorld.classStatusRef < classWorld.cells.length ∧
    (uvotTwice classWorld).2.1.statusRef =
      (uvotTwice classWorld).2.2.statusRef ∧
    (statusOf (errorVia (uvotTwice classWorld).1
        (uvotTwice classWorld).2.1 "x") (uvotTwice classWorld).2.2).status =
      "Rejected" ∧
    "x" ∈ (statusOf (errorVia (uvotTwice classWorld).1
        (uvotTwice classWorld).2.1 "x") (uvotTwice classWorld).2.2).errors := by
  have h := c9_shared_envelope classWorld "x" (by decide) (by decide)
  exact ⟨by decide, h.1, h.2.2.1, h.2.2.2.2⟩

end SwiftToo
